import Mathlib

/-!
Verification of the `sqlalchemy_recipe` expression compiler.

The development shallowly embeds the parts of the repository that the
properties below speak about:

* `sqlalchemy_recipe/expression/utils.py` (`date_offset`,
  `convert_to_start_datetime`, `convert_to_end_datetime`,
  `convert_to_eod_datetime`, `calc_date_range`) — translated directly from
  the source.
* `sqlalchemy_recipe/expression/builder.py` (`SQLAlchemyBuilder.parse`,
  `BuilderResponse`, the `functools.lru_cache` memoization) — translated
  directly from the source.
* The expression validator / transformer / grammar generator
  (`validator.py`, `transformer.py`, `grammar.py`, `datatype.py` under
  `sqlalchemy_recipe/expression/`)
  are not present in the repository snapshot; they are modelled from the
  specification and from the behaviour asserted by the repository's test
  suite (`tests/test_expression_builder.py`, `tests/test_expression_grammar.py`).

Dates are modelled as `(year, month, day)` triples with exact Gregorian
arithmetic mirroring `dateutil.relativedelta` (years and months applied with
day-of-month clamping, then days applied on the uniform day line).  Python
numeric literals are modelled as exact normalized rationals (`PyQ`); all
the literal foldings the tests exercise are exact.
-/

/-- ASCII lower-casing of a character, the behaviour of Python's
`str.lower()` on the ASCII keyword strings this module handles. -/
def charLower (c : Char) : Char :=
  if 65 ≤ c.toNat ∧ c.toNat ≤ 90 then Char.ofNat (c.toNat + 32) else c

/-- ASCII lower-casing of a string (Python `str.lower()`). -/
def strLower (s : String) : String :=
  String.mk (s.data.map charLower)

instance {ε α : Type} [DecidableEq ε] [DecidableEq α] : DecidableEq (Except ε α) :=
  fun a b =>
    match a, b with
    | .ok x, .ok y => decidable_of_iff (x = y) (by simp)
    | .error x, .error y => decidable_of_iff (x = y) (by simp)
    | .ok _, .error _ => .isFalse (by simp)
    | .error _, .ok _ => .isFalse (by simp)

/-- Gregorian leap-year test, as used by Python's `calendar`/`datetime`. -/
def isLeapYear (y : Int) : Bool :=
  (y % 4 == 0 && y % 100 != 0) || (y % 400 == 0)

/-- Number of days in month `m` of year `y` (months are 1-based). -/
def daysInMonth (y : Int) (m : Nat) : Nat :=
  if m == 2 then (if isLeapYear y then 29 else 28)
  else if m == 4 || m == 6 || m == 9 || m == 11 then 30
  else 31

/-- A Python `datetime.date`: a calendar day. -/
structure Date where
  year : Int
  month : Nat
  day : Nat
deriving DecidableEq, Repr

/-- A Python `datetime.datetime`: a calendar day plus a time of day. -/
structure DateTime where
  date : Date
  hour : Nat
  minute : Nat
  second : Nat
  microsecond : Nat
deriving DecidableEq, Repr

/-- The calendar day after `d`. -/
def nextDay (d : Date) : Date :=
  if d.day < daysInMonth d.year d.month then ⟨d.year, d.month, d.day + 1⟩
  else if d.month < 12 then ⟨d.year, d.month + 1, 1⟩
  else ⟨d.year + 1, 1, 1⟩

/-- The calendar day before `d`. -/
def prevDay (d : Date) : Date :=
  if d.day > 1 then ⟨d.year, d.month, d.day - 1⟩
  else if d.month > 1 then ⟨d.year, d.month - 1, daysInMonth d.year (d.month - 1)⟩
  else ⟨d.year - 1, 12, 31⟩

/-- Shift a date by `n` whole days on the uniform day line (the `days`
component of a `relativedelta`). -/
def addDays (d : Date) (n : Int) : Date :=
  if 0 ≤ n then Nat.iterate nextDay n.toNat d else Nat.iterate prevDay (-n).toNat d

/-- Shift a date by `n` months with day-of-month clamping, exactly as
`dateutil.relativedelta` does for its `months`/`years` components. -/
def addMonths (d : Date) (n : Int) : Date :=
  let m0 : Int := (d.month : Int) - 1 + n
  let y : Int := d.year + m0.fdiv 12
  let m : Nat := (m0.emod 12).toNat + 1
  ⟨y, m, min d.day (daysInMonth y m)⟩

/-- The argument of a `relativedelta(...)` call as used in
`sqlalchemy_recipe/expression/utils.py`: only `years`, `months` and `days`
components appear there. -/
structure RelDelta where
  years : Int := 0
  months : Int := 0
  days : Int := 0
deriving DecidableEq, Repr

/-- Semantics of `dt + relativedelta(years=.., months=.., days=..)`: years
and months are applied together with clamping, then days. -/
def addDelta (d : Date) (δ : RelDelta) : Date :=
  addDays (addMonths d (δ.years * 12 + δ.months)) δ.days

/-- Negation of a `relativedelta` negates every component; `dt -= rd` in
Python is `dt = dt + (-rd)`. -/
def negDelta (δ : RelDelta) : RelDelta :=
  ⟨-δ.years, -δ.months, -δ.days⟩

/-- Embedding of `date_offset(dt, offset, **offset_params)` from
`sqlalchemy_recipe/expression/utils.py`.  A raised `ValueError` is modelled
as `Except.error`. -/
def date_offset (dt : Date) (offset : String) (offset_params : RelDelta) :
    Except String Date :=
  if offset = "prior" ∨ offset = "previous" ∨ offset = "last" then
    .ok (addDelta dt (negDelta offset_params))
  else if offset = "next" then
    .ok (addDelta dt offset_params)
  else if offset = "current" ∨ offset = "this" then
    .ok dt
  else
    .error "Unknown intelligent date offset"

/-- A value that is either a Python `date` or a Python `datetime`, the two
possibilities the conversion helpers in `expression/utils.py` accept. -/
inductive DTValue where
  | d (v : Date)
  | dt (v : DateTime)
deriving DecidableEq, Repr

/-- Number of microseconds in one day. -/
def dayMicros : Int := 86400000000

/-- Microsecond-of-day of a `DateTime`. -/
def microOfDay (t : DateTime) : Int :=
  (((t.hour * 60 + t.minute) * 60 + t.second) * 1000000 + t.microsecond : Nat)

/-- Rebuild a `DateTime` from a date and a microsecond-of-day value. -/
def ofMicroOfDay (d : Date) (m : Nat) : DateTime :=
  ⟨d, m / 3600000000, m / 60000000 % 60, m / 1000000 % 60, m % 1000000⟩

/-- Semantics of `t + relativedelta(days=days, microseconds=micros)` on a
`datetime`: uniform-timeline arithmetic. -/
def dtAddDaysMicros (t : DateTime) (days micros : Int) : DateTime :=
  let total : Int := days * dayMicros + microOfDay t + micros
  let shift : Int := total.fdiv dayMicros
  ofMicroOfDay (addDays t.date shift) (total - shift * dayMicros).toNat

/-- Embedding of `convert_to_start_datetime`: truncate a date or datetime to
the first moment of its day. -/
def convert_to_start_datetime (v : DTValue) : DTValue :=
  match v with
  | .d d => .dt ⟨d, 0, 0, 0, 0⟩
  | .dt t => .dt ⟨t.date, 0, 0, 0, 0⟩

/-- Embedding of `convert_to_end_datetime`: truncate to midnight, then add
`relativedelta(days=1, microseconds=-1)`. -/
def convert_to_end_datetime (v : DTValue) : DTValue :=
  match v with
  | .d d => .dt (dtAddDaysMicros ⟨d, 0, 0, 0, 0⟩ 1 (-1))
  | .dt t => .dt (dtAddDaysMicros ⟨t.date, 0, 0, 0, 0⟩ 1 (-1))

/-- Embedding of `convert_to_eod_datetime`: a datetime is pushed to the last
moment of its day only when its time is the first moment of the day (the
source checks hour, minute and second); a date is always converted. -/
def convert_to_eod_datetime (v : DTValue) : DTValue :=
  match v with
  | .dt t =>
      if t.hour == 0 && t.minute == 0 && t.second == 0 then
        .dt (dtAddDaysMicros t 1 (-1))
      else .dt t
  | .d d => .dt (dtAddDaysMicros ⟨d, 0, 0, 0, 0⟩ 1 (-1))

/-- Embedding of `calc_date_range(offset, units, dt)` from
`sqlalchemy_recipe/expression/utils.py`: both arguments are lower-cased,
then dispatched on the units; an unknown units string raises `ValueError`. -/
def calc_date_range (offset units : String) (dt : Date) :
    Except String (Date × Date) := do
  let offset := strLower offset
  let units := strLower units
  if units = "year" then
    let dt ← date_offset dt offset ⟨1, 0, 0⟩
    return (⟨dt.year, 1, 1⟩, ⟨dt.year, 12, 31⟩)
  else if units = "ytd" then
    let dt ← date_offset dt offset ⟨1, 0, 0⟩
    return (⟨dt.year, 1, 1⟩, dt)
  else if units = "qtr" then
    let dt ← date_offset dt offset ⟨0, 3, 0⟩
    let qtr := (dt.month - 1) / 3
    return (⟨dt.year, qtr * 3 + 1, 1⟩,
      addDelta ⟨dt.year, qtr * 3 + 3, 1⟩ ⟨0, 1, -1⟩)
  else if units = "month" then
    let dt ← date_offset dt offset ⟨0, 1, 0⟩
    let start_dt : Date := ⟨dt.year, dt.month, 1⟩
    return (start_dt, addDelta start_dt ⟨0, 1, -1⟩)
  else if units = "mtd" then
    let dt ← date_offset dt offset ⟨0, 1, 0⟩
    return (⟨dt.year, dt.month, 1⟩, dt)
  else if units = "day" then
    let dt ← date_offset dt offset ⟨0, 0, 1⟩
    return (dt, dt)
  else
    .error "Unknown intelligent date units"

/-- Modelled from the spec: the intelligent-date handling of the missing
`expression/transformer.py`.  An `IS <offset> <unit>` phrase resolves to a
`BETWEEN` over the period computed by `calc_date_range`; against a
`datetime` column the bounds get end-of-day granularity via the
`convert_to_start_datetime` / `convert_to_eod_datetime` helpers. -/
def transform_is_phrase (coldt_is_datetime : Bool) (offset units : String)
    (now : Date) : Except String (DTValue × DTValue) := do
  let (s, e) ← calc_date_range offset units now
  if coldt_is_datetime then
    return (convert_to_start_datetime (.d s), convert_to_eod_datetime (.d e))
  else
    return (.d s, .d e)

/-- An exact rational, modelling the Python numeric literals (`int` and
`float`) the transformer folds at compile time.  Kept normalized (lowest
terms, positive denominator) by the arithmetic below; every folding the
repository's tests exercise is exact. -/
structure PyQ where
  num : Int
  den : Nat
deriving DecidableEq, Repr

/-- Build a normalized rational from a numerator and denominator. -/
def qnorm (n d : Int) : PyQ :=
  if d = 0 then ⟨0, 1⟩
  else
    let s : Int := if d < 0 then -1 else 1
    let n' : Int := s * n
    let d' : Nat := (s * d).toNat
    let g : Nat := Nat.gcd n'.natAbs d'
    ⟨n' / g, d' / g⟩

/-- The rational for an integer literal. -/
def qint (n : Int) : PyQ := ⟨n, 1⟩

/-- Rational addition. -/
def qadd (a b : PyQ) : PyQ := qnorm (a.num * b.den + b.num * a.den) (a.den * b.den)

/-- Rational subtraction. -/
def qsub (a b : PyQ) : PyQ := qnorm (a.num * b.den - b.num * a.den) (a.den * b.den)

/-- Rational multiplication. -/
def qmul (a b : PyQ) : PyQ := qnorm (a.num * b.num) (a.den * b.den)

/-- Rational division (Python `/`, true division). -/
def qdiv (a b : PyQ) : PyQ := qnorm (a.num * b.den) (a.den * b.num)

/-- The compiler's semantic type system, from the missing
`expression/datatype.py`: five usable kinds plus the `unusable` sentinel. -/
inductive DataType where
  | num
  | str
  | bool
  | date
  | datetime
  | unusable
deriving DecidableEq, Repr

/-- Display name of a semantic type as used in comparison and aggregation
error messages ("Can't compare num to str", "A str can not be ..."). -/
def dtName : DataType → String
  | .num => "num"
  | .str => "str"
  | .bool => "bool"
  | .date => "date"
  | .datetime => "datetime"
  | .unusable => "unusable"

/-- Display name of a semantic type as used in arithmetic mismatch messages,
where `str` prints as "string" ("string and num can not be added together"). -/
def arithTypeName (dt : DataType) : String :=
  if dt = .str then "string" else dtName dt

/-- Binary arithmetic operators of the expression language. -/
inductive ArithOp where
  | add
  | sub
  | mul
  | div
deriving DecidableEq, Repr

/-- Comparison operators of the expression language. -/
inductive CmpOp where
  | lt
  | lte
  | gt
  | gte
  | eq
  | ne
deriving DecidableEq, Repr

/-- Parse tree of a validated expression (the lark tree consumed by the
validator and transformer).  Each node carries the source position lark
propagates (`propagate_positions=True` in `dbinfo.py`), used for error
reporting. -/
inductive Expr where
  | col (name : String) (dt : DataType) (pos : Nat)
  | numLit (q : PyQ) (pos : Nat)
  | strLit (s : String) (pos : Nat)
  | boolLit (b : Bool) (pos : Nat)
  | arith (op : ArithOp) (a b : Expr) (pos : Nat)
  | cmp (op : CmpOp) (a b : Expr) (pos : Nat)
  | not (a : Expr) (pos : Nat)
  | and (a b : Expr) (pos : Nat)
  | or (a b : Expr) (pos : Nat)
  | agg (fname : String) (a : Expr) (pos : Nat)
deriving DecidableEq, Repr

/-- Source position of the root of an expression. -/
def exprPos : Expr → Nat
  | .col _ _ p => p
  | .numLit _ p => p
  | .strLit _ p => p
  | .boolLit _ p => p
  | .arith _ _ _ p => p
  | .cmp _ _ _ p => p
  | .not _ p => p
  | .and _ _ p => p
  | .or _ _ p => p
  | .agg _ _ p => p

/-- The transformer's output: either a raw Python constant (`str`, `float`,
`int`, `date`, `datetime` — the types `SQLAlchemyBuilder.parse` rejects as
literal-only results) or a SQLAlchemy `ClauseElement`.  Python ints and
floats are modelled together as rationals. -/
inductive SqlExpr where
  | pyNum (q : PyQ)
  | pyStr (s : String)
  | pyDate (v : Date)
  | pyDatetime (v : DateTime)
  | colRef (name : String)
  | boolClause (b : Bool)
  | sqlNull
  | binop (op : String) (a b : SqlExpr)
  | cmpOp (op : CmpOp) (a b : SqlExpr)
  | notOp (a : SqlExpr)
  | andOp (a b : SqlExpr)
  | orOp (a b : SqlExpr)
  | castFloat (a : SqlExpr)
  | caseWhen (cond thenv elsev : SqlExpr)
  | call (fname : String) (a : SqlExpr)
deriving DecidableEq, Repr

/-- True exactly for the raw Python constants rejected by the
`isinstance(expr, (str, float, int, date, datetime))` check in
`SQLAlchemyBuilder.parse`. -/
def isPyConstant : SqlExpr → Bool
  | .pyNum _ => true
  | .pyStr _ => true
  | .pyDate _ => true
  | .pyDatetime _ => true
  | _ => false

/-- True when the compiled expression mentions at least one column. -/
def containsColRef : SqlExpr → Bool
  | .colRef _ => true
  | .binop _ a b => containsColRef a || containsColRef b
  | .cmpOp _ a b => containsColRef a || containsColRef b
  | .andOp a b => containsColRef a || containsColRef b
  | .orOp a b => containsColRef a || containsColRef b
  | .notOp a => containsColRef a
  | .castFloat a => containsColRef a
  | .call _ a => containsColRef a
  | .caseWhen c t e => containsColRef c || containsColRef t || containsColRef e
  | _ => false

/-- Semantic type of a (validated) expression, bottom-up. -/
def typeOf : Expr → DataType
  | .col _ dt _ => dt
  | .numLit _ _ => .num
  | .strLit _ _ => .str
  | .boolLit _ _ => .bool
  | .arith _ a _ _ => typeOf a
  | .cmp _ _ _ _ => .bool
  | .not _ _ => .bool
  | .and _ _ _ => .bool
  | .or _ _ _ => .bool
  | .agg f a _ => if f = "min" ∨ f = "max" then typeOf a else .num

/-- SQL spelling of a numeric arithmetic operator. -/
def arithOpStr : ArithOp → String
  | .add => "+"
  | .sub => "-"
  | .mul => "*"
  | .div => "/"

/-- Exact rational arithmetic used for compile-time literal folding. -/
def applyArithQ : ArithOp → PyQ → PyQ → PyQ
  | .add, x, y => qadd x y
  | .sub, x, y => qsub x y
  | .mul, x, y => qmul x y
  | .div, x, y => qdiv x y

/-- Wrap a non-literal operand of a division in `CAST(... AS FLOAT)`;
literal operands stay bare (`[score] / 2` keeps the `2`). -/
def castFloatIfNeeded (e : SqlExpr) : SqlExpr :=
  match e with
  | .pyNum q => .pyNum q
  | e => .castFloat e

/-- Modelled from the spec: the division rule of the missing
`expression/transformer.py`.  Both operands are already transformed.  A
literal-zero denominator is a compile error; a literal denominator gives a
plain (possibly folded) division, with a denominator of 1 returning the
bare numerator; a non-literal denominator gets the runtime `CASE WHEN`
divide-by-zero guard. -/
def transformDiv (num den : SqlExpr) : Except String SqlExpr :=
  match den with
  | .pyNum d =>
      if d = qint 0 then .error "When dividing, the denominator can not be zero"
      else
        match num with
        | .pyNum n => .ok (.pyNum (qdiv n d))
        | num =>
            if d = qint 1 then .ok num
            else .ok (.binop "/" (castFloatIfNeeded num) (.pyNum d))
  | den =>
      .ok (.caseWhen (.cmpOp .eq den (.pyNum (qint 0))) .sqlNull
        (.binop "/" (castFloatIfNeeded num) (castFloatIfNeeded den)))

/-- Modelled from the spec: numeric arithmetic in the missing
`expression/transformer.py` — fold when both operands are numeric literals,
emit the SQL operator otherwise; division goes through `transformDiv`. -/
def arithFold (op : ArithOp) (a b : SqlExpr) : Except String SqlExpr :=
  match op with
  | .div => transformDiv a b
  | op =>
      match a, b with
      | .pyNum x, .pyNum y => .ok (.pyNum (applyArithQ op x y))
      | a, b => .ok (.binop (arithOpStr op) a b)

/-- Comparison-operator flip used when `NOT` is applied to a comparison. -/
def flipCmp : CmpOp → CmpOp
  | .lt => .gte
  | .lte => .gt
  | .gt => .lte
  | .gte => .lt
  | .eq => .ne
  | .ne => .eq

/-- Modelled from the spec: applying `NOT` in the missing transformer —
a comparison is rewritten by flipping its operator, a double `NOT` cancels,
anything else is wrapped in a negation node. -/
def applyNot (e : SqlExpr) : SqlExpr :=
  match e with
  | .cmpOp op a b => .cmpOp (flipCmp op) a b
  | .notOp x => x
  | e => .notOp e

/-- Modelled from the spec: `AND` short-circuit folding in the missing
transformer — a literal `true` operand is dropped, a literal `false`
operand collapses the conjunction to literal `false`. -/
def foldAnd (a b : SqlExpr) : SqlExpr :=
  match a, b with
  | .boolClause true, b => b
  | a, .boolClause true => a
  | .boolClause false, _ => .boolClause false
  | _, .boolClause false => .boolClause false
  | a, b => .andOp a b

/-- Modelled from the spec: `OR` short-circuit folding in the missing
transformer — a literal `false` operand is dropped, a literal `true`
operand collapses the disjunction to literal `true`. -/
def foldOr (a b : SqlExpr) : SqlExpr :=
  match a, b with
  | .boolClause false, b => b
  | a, .boolClause false => a
  | .boolClause true, _ => .boolClause true
  | _, .boolClause true => .boolClause true
  | a, b => .orOp a b

/-- Modelled from the spec: the bottom-up tree transformation of the missing
`expression/transformer.py` (`TransformToSQLAlchemyExpression.transform`),
restricted to the node kinds this development reasons about.  Children are
transformed first, so a transformation error anywhere propagates. -/
def transform : Expr → Except String SqlExpr
  | .col name _ _ => .ok (.colRef name)
  | .numLit q _ => .ok (.pyNum q)
  | .strLit s _ => .ok (.pyStr s)
  | .boolLit b _ => .ok (.boolClause b)
  | .arith op a b _ => do
      let ta ← transform a
      let tb ← transform b
      if op = ArithOp.add ∧ typeOf a = DataType.str then
        match ta, tb with
        | .pyStr x, .pyStr y => .ok (.pyStr (x ++ y))
        | ta, tb => .ok (.binop "||" ta tb)
      else
        arithFold op ta tb
  | .cmp op a b _ => do
      let ta ← transform a
      let tb ← transform b
      .ok (.cmpOp op ta tb)
  | .not a _ => do
      let ta ← transform a
      .ok (applyNot ta)
  | .and a b _ => do
      let ta ← transform a
      let tb ← transform b
      .ok (foldAnd ta tb)
  | .or a b _ => do
      let ta ← transform a
      let tb ← transform b
      .ok (foldOr ta tb)
  | .agg f a _ => do
      let ta ← transform a
      .ok (.call f ta)

/-- An accumulated validation error: human-readable message plus source
position. -/
abbrev VError := String × Nat

/-- Result of the validator pass: the accumulated errors, the datatype of
the root (`validator.last_datatype`) and whether any aggregation function
was seen (`validator.found_aggregation`). -/
structure VResult where
  errors : List VError
  datatype : DataType
  found_aggregation : Bool
deriving DecidableEq, Repr

/-- Verb used in arithmetic type-mismatch messages. -/
def arithVerb : ArithOp → String
  | .add => "added together"
  | .sub => "subtracted"
  | .mul => "multiplied together"
  | .div => "divided"

/-- Modelled from the spec: the single bottom-up pass of the missing
`expression/validator.py` (`SQLALchemyValidator`).  Every node contributes
its children's errors followed by its own, so errors accumulate and are
never truncated; aggregation usage is flagged if any aggregation call
appears anywhere. -/
def validate : Expr → VResult
  | .col _ dt _ => ⟨[], dt, false⟩
  | .numLit _ _ => ⟨[], .num, false⟩
  | .strLit _ _ => ⟨[], .str, false⟩
  | .boolLit _ _ => ⟨[], .bool, false⟩
  | .arith op a b _ =>
      let ra := validate a
      let rb := validate b
      let own : List VError :=
        if op = ArithOp.add ∧ ra.datatype = .str ∧ rb.datatype = .str then []
        else if ra.datatype = .num ∧ rb.datatype = .num then []
        else [(arithTypeName ra.datatype ++ " and " ++ arithTypeName rb.datatype
          ++ " can not be " ++ arithVerb op, exprPos a)]
      ⟨ra.errors ++ (rb.errors ++ own),
        (if ra.datatype = .str then .str else .num),
        ra.found_aggregation || rb.found_aggregation⟩
  | .cmp _ a b _ =>
      let ra := validate a
      let rb := validate b
      let own : List VError :=
        if ra.datatype = rb.datatype ∨
            ((ra.datatype = .date ∨ ra.datatype = .datetime) ∧
              (rb.datatype = .date ∨ rb.datatype = .datetime)) then []
        else [("Can't compare " ++ dtName ra.datatype ++ " to "
          ++ dtName rb.datatype, exprPos a)]
      ⟨ra.errors ++ (rb.errors ++ own), .bool,
        ra.found_aggregation || rb.found_aggregation⟩
  | .not a p =>
      let ra := validate a
      let own : List VError :=
        if ra.datatype = .bool then []
        else [("NOT requires a boolean value", p)]
      ⟨ra.errors ++ own, .bool, ra.found_aggregation⟩
  | .and a b _ =>
      let ra := validate a
      let rb := validate b
      ⟨ra.errors ++ rb.errors, .bool, ra.found_aggregation || rb.found_aggregation⟩
  | .or a b _ =>
      let ra := validate a
      let rb := validate b
      ⟨ra.errors ++ rb.errors, .bool, ra.found_aggregation || rb.found_aggregation⟩
  | .agg f a p =>
      let ra := validate a
      let own : List VError :=
        if (f = "sum" ∨ f = "avg") ∧ ra.datatype ≠ .num then
          [("A " ++ dtName ra.datatype ++ " can not be aggregated using "
            ++ f ++ ".", p)]
        else []
      ⟨ra.errors ++ own,
        (if f = "min" ∨ f = "max" then ra.datatype else .num), true⟩

/-- Modelled from the spec: builder-level validation — `SQLAlchemyBuilder.parse`
runs the validator with the `forbid_aggregation` flag; an aggregation seen
while forbidden is reported at the root span, in addition to (and ahead of)
all inner errors. -/
def builderValidate (forbid_aggregation : Bool) (e : Expr) : VResult :=
  let r := validate e
  if forbid_aggregation && r.found_aggregation then
    { r with errors := ("Aggregations are not allowed in this field.", 0) :: r.errors }
  else r

/-- Embedding of the `BuilderResponse` dataclass of
`sqlalchemy_recipe/expression/builder.py`. -/
structure BuilderResponse where
  datatype : DataType
  expression : SqlExpr
  is_aggr : Bool
deriving DecidableEq, Repr

/-- Embedding of the body of `SQLAlchemyBuilder.parse` from
`sqlalchemy_recipe/expression/builder.py`: validate (raising a
`GrammarError` carrying every accumulated error), transform, reject raw
constant results, and wrap in the default aggregation when
`enforce_aggregation` is set, no aggregation was found and the datatype is
`num`.  The parse-tree argument stands for the already-parsed text. -/
def builder_parse (forbid_aggregation enforce_aggregation : Bool)
    (default_aggregation : String) (e : Expr) :
    Except (List VError) BuilderResponse :=
  let v := builderValidate forbid_aggregation e
  if v.errors ≠ [] then .error v.errors
  else
    match transform e with
    | .error m => .error [(m, 0)]
    | .ok expr =>
        if isPyConstant expr then
          .error [("Must return an expression, not a constant value", 0)]
        else if enforce_aggregation && !v.found_aggregation
            && (v.datatype == DataType.num) then
          .ok ⟨v.datatype, .call default_aggregation expr, v.found_aggregation⟩
        else
          .ok ⟨v.datatype, expr, v.found_aggregation⟩

/-- The full argument tuple of `SQLAlchemyBuilder.parse`, which is the
`functools.lru_cache` key. -/
structure ParseArgs where
  text : String
  forbid_aggregation : Bool
  enforce_aggregation : Bool
  convert_dates_with : Option String
  convert_datetimes_with : Option String
  default_aggregation : String
  debug : Bool
deriving DecidableEq, Repr

/-- The memoization cache of one `SQLAlchemyBuilder` instance, keyed by the
full argument tuple. -/
abbrev ParseCache := List (ParseArgs × BuilderResponse)

/-- Lookup in the memoization cache. -/
def cacheLookup (c : ParseCache) (a : ParseArgs) : Option BuilderResponse :=
  match c with
  | [] => none
  | (k, v) :: rest => if k = a then some v else cacheLookup rest a

/-- Embedding of the `functools.lru_cache(maxsize=None)` wrapper around
`SQLAlchemyBuilder.parse`: a hit returns the cached response, a successful
miss computes and stores it, and a raising call stores nothing (`lru_cache`
does not cache exceptions).  The returned flag records whether the call was
served from the cache.  With `maxsize=None` nothing is ever evicted. -/
def cachedParse (impl : ParseArgs → Except (List VError) BuilderResponse)
    (c : ParseCache) (a : ParseArgs) :
    ParseCache × Except (List VError) BuilderResponse × Bool :=
  match cacheLookup c a with
  | some r => (c, .ok r, true)
  | none =>
      match impl a with
      | .ok r => ((a, r) :: c, .ok r, false)
      | .error e => (c, .error e, false)

/-- The column catalog consumed by the grammar generator: an ordered list
of (column name, semantic type) pairs, as produced by
`make_columns_for_table` from a reflected table's ordered columns. -/
abbrev Catalog := List (String × DataType)

/-- Rule-name tag of a semantic type (`num_0`, `str_1`, `unusable_0`, ...). -/
def dtRuleTag : DataType → String
  | .num => "num"
  | .str => "str"
  | .bool => "bool"
  | .date => "date"
  | .datetime => "datetime"
  | .unusable => "unusable"

/-- Modelled from the spec: per-semantic-type index assignment of the
missing `expression/grammar.py` — walking the catalog in order, each column
gets rule name `<type>_<i>` where `i` counts the earlier columns of the
same type (`seen` carries the types already walked). -/
def ruleEntriesAux (seen : List DataType) : Catalog → List (String × String)
  | [] => []
  | (name, dt) :: rest =>
      (dtRuleTag dt ++ "_" ++ toString (seen.count dt), name)
        :: ruleEntriesAux (seen ++ [dt]) rest

/-- Rule name / column name pairs for a catalog, in catalog order. -/
def ruleEntries (cat : Catalog) : List (String × String) :=
  ruleEntriesAux [] cat

/-- Lexicographic comparison of char lists by code point. -/
def charListLe : List Char → List Char → Bool
  | [], _ => true
  | _ :: _, [] => false
  | a :: as, b :: bs =>
      if a.toNat < b.toNat then true
      else if b.toNat < a.toNat then false
      else charListLe as bs

/-- Lexicographic order on strings by code point (the order Python `sorted`
uses on the ASCII rule names). -/
def strLe (a b : String) : Bool := charListLe a.data b.data

/-- Insertion into a list of entries sorted by rule name. -/
def insertSorted (p : String × String) :
    List (String × String) → List (String × String)
  | [] => [p]
  | q :: rest => if strLe p.1 q.1 then p :: q :: rest else q :: insertSorted p rest

/-- Sort rule entries lexicographically by rule name (Python `sorted`). -/
def sortByName (l : List (String × String)) : List (String × String) :=
  l.foldr insertSorted []

/-- Render one lark rule line: `str_0: "[" + /username/i + "]"`. -/
def renderRule (p : String × String) : String :=
  p.1 ++ ": \"[\" + /" ++ p.2 ++ "/i + \"]\""

/-- Modelled from the spec: `make_raw_column_rules` of the missing
`expression/grammar.py` — one case-insensitive bracketed reference rule per
column, sorted by rule name and joined into one grammar fragment (the exact
text `tests/test_expression_grammar.py` asserts). -/
def make_raw_column_rules (cat : Catalog) : String :=
  String.intercalate "\n" ((sortByName (ruleEntries cat)).map renderRule)

/-- The `datatypes` table catalog from `tests/test_expression_base.py`, in
declaration order. -/
def datatypesCatalog : Catalog :=
  [("username", .str), ("department", .str), ("testid", .str),
   ("score", .num), ("test_date", .date), ("test_datetime", .datetime),
   ("valid_score", .bool)]

/-- The `state_fact` table catalog from `tests/test_expression_base.py`:
fourteen string columns followed by a JSON (`unusable`) column. -/
def stateFactCatalog : Catalog :=
  [("id", .str), ("name", .str), ("abbreviation", .str), ("sort", .str),
   ("status", .str), ("occupied", .str), ("notes", .str), ("fips_state", .str),
   ("assoc_press", .str), ("standard_federal_region", .str),
   ("census_region", .str), ("census_region_name", .str),
   ("census_division", .str), ("census_division_name", .str),
   ("circuit_court", .unusable)]


/-- A concrete parse implementation for exercising the memoization model:
the builder parse of the text `[score]`, whose parse tree is a single
column reference. -/
def parseImplScore (args : ParseArgs) : Except (List VError) BuilderResponse :=
  builder_parse args.forbid_aggregation args.enforce_aggregation
    args.default_aggregation (.col "score" .num 0)

/-- The full argument tuple of a plain `parse("[score]")` call. -/
def scoreArgs : ParseArgs := ⟨"[score]", false, false, none, none, "sum", false⟩

/-- An unrelated argument tuple assumed already cached. -/
def otherArgs : ParseArgs := ⟨"[department]", false, false, none, none, "sum", false⟩

/-- The cached response for `otherArgs`. -/
def otherResp : BuilderResponse := ⟨.str, .colRef "department", false⟩

/-! ## Theorems -/

/-- Folding `AND` with a literal `true` on the right keeps the other operand. -/
theorem foldAnd_true_right (v : SqlExpr) : foldAnd v (.boolClause true) = v := by
  cases v <;> first | rfl | (rename_i b; cases b <;> rfl)

/-- Folding `AND` with a literal `false` on the right gives literal `false`. -/
theorem foldAnd_false_right (v : SqlExpr) :
    foldAnd v (.boolClause false) = .boolClause false := by
  cases v <;> first | rfl | (rename_i b; cases b <;> rfl)

/-- Folding `AND` with a literal `true` on the left keeps the other operand. -/
theorem foldAnd_true_left (v : SqlExpr) : foldAnd (.boolClause true) v = v := by
  cases v <;> first | rfl | (rename_i b; cases b <;> rfl)

/-- Folding `AND` with a literal `false` on the left gives literal `false`. -/
theorem foldAnd_false_left (v : SqlExpr) :
    foldAnd (.boolClause false) v = .boolClause false := by
  cases v <;> first | rfl | (rename_i b; cases b <;> rfl)

/-- Folding `OR` with a literal `false` on the right keeps the other operand. -/
theorem foldOr_false_right (v : SqlExpr) : foldOr v (.boolClause false) = v := by
  cases v <;> first | rfl | (rename_i b; cases b <;> rfl)

/-- Folding `OR` with a literal `true` on the right gives literal `true`. -/
theorem foldOr_true_right (v : SqlExpr) :
    foldOr v (.boolClause true) = .boolClause true := by
  cases v <;> first | rfl | (rename_i b; cases b <;> rfl)

/-- Folding `OR` with a literal `false` on the left keeps the other operand. -/
theorem foldOr_false_left (v : SqlExpr) : foldOr (.boolClause false) v = v := by
  cases v <;> first | rfl | (rename_i b; cases b <;> rfl)

/-- Folding `OR` with a literal `true` on the left gives literal `true`. -/
theorem foldOr_true_left (v : SqlExpr) :
    foldOr (.boolClause true) v = .boolClause true := by
  cases v <;> first | rfl | (rename_i b; cases b <;> rfl)

/-- C2: with the current moment fixed at 2020-01-14, `[test_date] IS last
year` resolves to a BETWEEN spanning 2019-01-01 .. 2019-12-31; against a
datetime column the same phrase spans 2019-01-01 00:00:00 ..
2019-12-31 23:59:59.999999 (end-of-day granularity), `next year` spans 2021
likewise, and the other offset/unit combinations come from `calc_date_range`
relative to the reference moment (`this mtd`, `next qtr`, `last day`
checked). -/
theorem is_phrase_date_ranges :
    transform_is_phrase false "last" "year" ⟨2020, 1, 14⟩ =
      .ok (.d ⟨2019, 1, 1⟩, .d ⟨2019, 12, 31⟩) ∧
    transform_is_phrase true "last" "year" ⟨2020, 1, 14⟩ =
      .ok (.dt ⟨⟨2019, 1, 1⟩, 0, 0, 0, 0⟩, .dt ⟨⟨2019, 12, 31⟩, 23, 59, 59, 999999⟩) ∧
    transform_is_phrase true "next" "year" ⟨2020, 1, 14⟩ =
      .ok (.dt ⟨⟨2021, 1, 1⟩, 0, 0, 0, 0⟩, .dt ⟨⟨2021, 12, 31⟩, 23, 59, 59, 999999⟩) ∧
    transform_is_phrase false "this" "mtd" ⟨2020, 1, 14⟩ =
      .ok (.d ⟨2020, 1, 1⟩, .d ⟨2020, 1, 14⟩) ∧
    transform_is_phrase false "next" "qtr" ⟨2020, 1, 14⟩ =
      .ok (.d ⟨2020, 4, 1⟩, .d ⟨2020, 6, 30⟩) ∧
    transform_is_phrase false "last" "day" ⟨2020, 1, 14⟩ =
      .ok (.d ⟨2020, 1, 13⟩, .d ⟨2020, 1, 13⟩) :=
  ⟨rfl, rfl, rfl, rfl, rfl, rfl⟩

/-- C10: `date_offset` accepts exactly the synonyms prior/previous/last
(previous period), current/this (current period) and next (following
period), raising `ValueError` on every other offset string; and
`calc_date_range` raises `ValueError` for every units string outside
year/ytd/qtr/month/mtd/day, after lower-casing (lower-casing checked by the
mixed-case conjunct). -/
theorem date_offset_synonyms_and_unknown_errors :
    (∀ (dt : Date) (δ : RelDelta) (off : String),
      off ≠ "prior" → off ≠ "previous" → off ≠ "last" → off ≠ "next" →
      off ≠ "current" → off ≠ "this" →
      date_offset dt off δ = .error "Unknown intelligent date offset") ∧
    (∀ (dt : Date) (δ : RelDelta),
      date_offset dt "prior" δ = .ok (addDelta dt (negDelta δ)) ∧
      date_offset dt "previous" δ = .ok (addDelta dt (negDelta δ)) ∧
      date_offset dt "last" δ = .ok (addDelta dt (negDelta δ)) ∧
      date_offset dt "current" δ = .ok dt ∧
      date_offset dt "this" δ = .ok dt ∧
      date_offset dt "next" δ = .ok (addDelta dt δ)) ∧
    (∀ (off units : String) (dt : Date),
      strLower units ≠ "year" → strLower units ≠ "ytd" →
      strLower units ≠ "qtr" → strLower units ≠ "month" →
      strLower units ≠ "mtd" → strLower units ≠ "day" →
      calc_date_range off units dt = .error "Unknown intelligent date units") ∧
    calc_date_range "LAST" "YeAr" ⟨2020, 1, 14⟩ =
      .ok (⟨2019, 1, 1⟩, ⟨2019, 12, 31⟩) := by
  refine ⟨?_, ?_, ?_, rfl⟩
  · intro dt δ off h1 h2 h3 h4 h5 h6
    simp [date_offset, h1, h2, h3, h4, h5, h6]
  · intro dt δ
    exact ⟨rfl, rfl, rfl, rfl, rfl, rfl⟩
  · intro off units dt h1 h2 h3 h4 h5 h6
    simp [calc_date_range, h1, h2, h3, h4, h5, h6]

/-- Witness for C10 at concrete inputs: the unknown offset "potato" and the
unknown units "potato" both raise. -/
theorem date_offset_synonyms_and_unknown_errors_witness :
    date_offset ⟨2020, 1, 14⟩ "potato" ⟨1, 0, 0⟩ =
      .error "Unknown intelligent date offset" ∧
    calc_date_range "last" "potato" ⟨2020, 1, 14⟩ =
      .error "Unknown intelligent date units" :=
  ⟨date_offset_synonyms_and_unknown_errors.1 ⟨2020, 1, 14⟩ ⟨1, 0, 0⟩ "potato"
      (by decide) (by decide) (by decide) (by decide) (by decide) (by decide),
   date_offset_synonyms_and_unknown_errors.2.2.1 "last" "potato" ⟨2020, 1, 14⟩
      (by decide) (by decide) (by decide) (by decide) (by decide) (by decide)⟩

/-- C6: `NOT` applied to a comparison flips the comparison operator instead
of wrapping the comparison in a negation node; in particular
`NOT [score] >= 2.0` compiles to exactly the same expression as
`[score] < 2.0`. -/
theorem not_flips_comparison :
    (∀ (op : CmpOp) (a b : Expr) (p q : Nat),
      transform (.not (.cmp op a b p) q) = transform (.cmp (flipCmp op) a b p)) ∧
    transform (.not (.cmp .gte (.col "score" .num 4) (.numLit ⟨2, 1⟩ 15) 4) 0) =
      transform (.cmp .lt (.col "score" .num 0) (.numLit ⟨2, 1⟩ 10) 0) ∧
    transform (.not (.cmp .gte (.col "score" .num 4) (.numLit ⟨2, 1⟩ 15) 4) 0) =
      .ok (.cmpOp .lt (.colRef "score") (.pyNum ⟨2, 1⟩)) := by
  refine ⟨?_, rfl, rfl⟩
  intro op a b p q
  cases h1 : transform a <;> cases h2 : transform b <;>
    simp only [transform, h1, h2] <;> rfl

/-- C7: boolean connectives with a literal operand are folded at compile
time: for every expression that transforms successfully, `X AND true`
compiles identically to `X`, `X AND false` compiles to the literal `false`,
and the symmetric rules and the `OR` rules fold likewise. -/
theorem boolean_literal_short_circuit :
    ∀ (x : Expr) (v : SqlExpr) (p q : Nat), transform x = .ok v →
      transform (.and x (.boolLit true p) q) = .ok v ∧
      transform (.and x (.boolLit false p) q) = .ok (.boolClause false) ∧
      transform (.and (.boolLit true p) x q) = .ok v ∧
      transform (.and (.boolLit false p) x q) = .ok (.boolClause false) ∧
      transform (.or x (.boolLit false p) q) = .ok v ∧
      transform (.or x (.boolLit true p) q) = .ok (.boolClause true) ∧
      transform (.or (.boolLit false p) x q) = .ok v ∧
      transform (.or (.boolLit true p) x q) = .ok (.boolClause true) := by
  intro x v p q h
  simp only [transform, h]
  exact ⟨congrArg Except.ok (foldAnd_true_right v),
    congrArg Except.ok (foldAnd_false_right v),
    congrArg Except.ok (foldAnd_true_left v),
    congrArg Except.ok (foldAnd_false_left v),
    congrArg Except.ok (foldOr_false_right v),
    congrArg Except.ok (foldOr_true_right v),
    congrArg Except.ok (foldOr_false_left v),
    congrArg Except.ok (foldOr_true_left v)⟩

/-- Witness for C7 at the test's input `[score] > 3`: `[score] > 3 AND True`
compiles to `[score] > 3` alone and `[score] > 3 AND False` compiles to the
literal `false`. -/
theorem boolean_literal_short_circuit_witness :
    transform (.and (.cmp .gt (.col "score" .num 0) (.numLit ⟨3, 1⟩ 10) 0)
        (.boolLit true 16) 0) =
      .ok (.cmpOp .gt (.colRef "score") (.pyNum ⟨3, 1⟩)) ∧
    transform (.and (.cmp .gt (.col "score" .num 0) (.numLit ⟨3, 1⟩ 10) 0)
        (.boolLit false 16) 0) =
      .ok (.boolClause false) :=
  ⟨(boolean_literal_short_circuit
      (.cmp .gt (.col "score" .num 0) (.numLit ⟨3, 1⟩ 10) 0)
      (.cmpOp .gt (.colRef "score") (.pyNum ⟨3, 1⟩)) 16 0 rfl).1,
   (boolean_literal_short_circuit
      (.cmp .gt (.col "score" .num 0) (.numLit ⟨3, 1⟩ 10) 0)
      (.cmpOp .gt (.colRef "score") (.pyNum ⟨3, 1⟩)) 16 0 rfl).2.1⟩

/-- C3: validation collects every error in a single pass and reports them
all together: a subtree's accumulated errors always survive, unshortened,
into its parent's error list (shown for arithmetic and aggregation nodes
and for the builder-level forbid-aggregation wrapper), and the
test-suite input `sum([score]) + sum([department])` with aggregation
forbidden fails with exactly its two errors, messages and positions in
order. -/
theorem validation_errors_accumulate :
    (∀ (op : ArithOp) (a b : Expr) (p : Nat),
      (validate a).errors.Sublist (validate (.arith op a b p)).errors ∧
      (validate b).errors.Sublist (validate (.arith op a b p)).errors) ∧
    (∀ (f : String) (a : Expr) (p : Nat),
      (validate a).errors.Sublist (validate (.agg f a p)).errors) ∧
    (∀ (e : Expr) (fa : Bool),
      (validate e).errors.Sublist (builderValidate fa e).errors) ∧
    builder_parse true false "sum"
      (.arith .add (.agg "sum" (.col "score" .num 4) 0)
        (.agg "sum" (.col "department" .str 19) 15) 0) =
      .error [("Aggregations are not allowed in this field.", 0),
              ("A str can not be aggregated using sum.", 15)] := by
  refine ⟨?_, ?_, ?_, rfl⟩
  · intro op a b p
    exact ⟨List.sublist_append_left _ _,
      (List.sublist_append_left _ _).trans (List.sublist_append_right _ _)⟩
  · intro f a p
    exact List.sublist_append_left _ _
  · intro e fa
    simp only [builderValidate]
    split
    · exact (List.Sublist.refl _).cons _
    · exact List.Sublist.refl _

/-- Rule-name characterization of the grammar generator's walk: the entry
for the k-th catalog column tags it with its type's index counting the
same-type columns already seen. -/
theorem ruleEntriesAux_getElem (cat : Catalog) :
    ∀ (seen : List DataType) (k : Nat) (name : String) (dt : DataType),
      cat[k]? = some (name, dt) →
      (ruleEntriesAux seen cat)[k]? =
        some (dtRuleTag dt ++ "_" ++
          toString ((seen ++ (cat.take k).map Prod.snd).count dt), name) := by
  induction cat with
  | nil =>
      intro seen k name dt h
      simp at h
  | cons hd tl ih =>
      intro seen k name dt h
      cases k with
      | zero =>
          simp only [List.getElem?_cons_zero, Option.some.injEq] at h
          subst h
          simp [ruleEntriesAux]
      | succ n =>
          simp only [List.getElem?_cons_succ] at h
          have step := ih (seen ++ [hd.2]) n name dt h
          simp only [ruleEntriesAux, List.getElem?_cons_succ]
          rw [step]
          simp [List.append_assoc]

/-- C5: grammar generation is a deterministic pure function of the ordered
catalog: the `datatypes` and `state_fact` catalogs yield exactly the raw
column rule text the test suite asserts (byte for byte, including the
lexicographic rule ordering that puts `str_10` before `str_2`), and in
general the k-th column of a catalog is assigned the rule name
`<type>_<i>` where `i` counts the earlier columns of the same semantic
type, so identical catalogs always give identical rule names. -/
theorem grammar_generation_deterministic :
    make_raw_column_rules datatypesCatalog =
      String.intercalate "\n"
        ["bool_0: \"[\" + /valid_score/i + \"]\"",
         "date_0: \"[\" + /test_date/i + \"]\"",
         "datetime_0: \"[\" + /test_datetime/i + \"]\"",
         "num_0: \"[\" + /score/i + \"]\"",
         "str_0: \"[\" + /username/i + \"]\"",
         "str_1: \"[\" + /department/i + \"]\"",
         "str_2: \"[\" + /testid/i + \"]\""] ∧
    make_raw_column_rules stateFactCatalog =
      String.intercalate "\n"
        ["str_0: \"[\" + /id/i + \"]\"",
         "str_1: \"[\" + /name/i + \"]\"",
         "str_10: \"[\" + /census_region/i + \"]\"",
         "str_11: \"[\" + /census_region_name/i + \"]\"",
         "str_12: \"[\" + /census_division/i + \"]\"",
         "str_13: \"[\" + /census_division_name/i + \"]\"",
         "str_2: \"[\" + /abbreviation/i + \"]\"",
         "str_3: \"[\" + /sort/i + \"]\"",
         "str_4: \"[\" + /status/i + \"]\"",
         "str_5: \"[\" + /occupied/i + \"]\"",
         "str_6: \"[\" + /notes/i + \"]\"",
         "str_7: \"[\" + /fips_state/i + \"]\"",
         "str_8: \"[\" + /assoc_press/i + \"]\"",
         "str_9: \"[\" + /standard_federal_region/i + \"]\"",
         "unusable_0: \"[\" + /circuit_court/i + \"]\""] ∧
    (∀ (cat : Catalog) (k : Nat) (name : String) (dt : DataType),
      cat[k]? = some (name, dt) →
      (ruleEntries cat)[k]? =
        some (dtRuleTag dt ++ "_" ++
          toString (((cat.take k).map Prod.snd).count dt), name)) := by
  refine ⟨rfl, rfl, ?_⟩
  intro cat k name dt h
  simpa using ruleEntriesAux_getElem cat [] k name dt h

/-- Witness for C5: the third catalog column `testid` (a string, preceded
by two other strings) is assigned rule name `str_2`. -/
theorem grammar_generation_deterministic_witness :
    (ruleEntries datatypesCatalog)[2]? = some ("str_2", "testid") :=
  grammar_generation_deterministic.2.2 datatypesCatalog 2 "testid" DataType.str rfl

/-- C1: the four-way division rule.  Two numeric literals fold to a
literal quotient; a literal denominator folding to a nonzero value other
than 1 yields a plain float-cast division (literal operands stay
uncast); a denominator folding to 1 yields the bare numerator; a
denominator folding to zero (directly, or through literal arithmetic such
as `10-10`) is the compile error "denominator can not be zero"; any other
denominator gets the runtime guard
`CASE WHEN den = 0 THEN NULL ELSE cast(num) / cast(den) END`.
The concrete conjuncts check `[score] / 0`, `[score] / (10-10)` and
`[score] / (10-9)` end to end. -/
theorem division_transform_cases :
    (∀ (n d : PyQ), d ≠ qint 0 →
      transformDiv (.pyNum n) (.pyNum d) = .ok (.pyNum (qdiv n d))) ∧
    (∀ (num : SqlExpr) (d : PyQ), (∀ q, num ≠ .pyNum q) → d ≠ qint 0 → d ≠ qint 1 →
      transformDiv num (.pyNum d) =
        .ok (.binop "/" (castFloatIfNeeded num) (.pyNum d))) ∧
    (∀ (num : SqlExpr), (∀ q, num ≠ .pyNum q) →
      transformDiv num (.pyNum (qint 1)) = .ok num) ∧
    (∀ (num : SqlExpr),
      transformDiv num (.pyNum (qint 0)) =
        .error "When dividing, the denominator can not be zero") ∧
    (∀ (num den : SqlExpr), (∀ q, den ≠ .pyNum q) →
      transformDiv num den =
        .ok (.caseWhen (.cmpOp .eq den (.pyNum (qint 0))) .sqlNull
          (.binop "/" (castFloatIfNeeded num) (castFloatIfNeeded den)))) ∧
    builder_parse false false "sum"
      (.arith .div (.col "score" .num 0) (.numLit (qint 0) 10) 0) =
      .error [("When dividing, the denominator can not be zero", 0)] ∧
    builder_parse false false "sum"
      (.arith .div (.col "score" .num 0)
        (.arith .sub (.numLit (qint 10) 11) (.numLit (qint 10) 14) 11) 0) =
      .error [("When dividing, the denominator can not be zero", 0)] ∧
    transform (.arith .div (.col "score" .num 0)
        (.arith .sub (.numLit (qint 10) 11) (.numLit (qint 9) 14) 11) 0) =
      .ok (.colRef "score") := by
  refine ⟨?_, ?_, ?_, ?_, ?_, rfl, rfl, rfl⟩
  · intro n d h
    simp [transformDiv, h]
  · intro num d hnum h0 h1
    cases num <;> first
      | exact absurd rfl (hnum _)
      | simp [transformDiv, h0, h1]
  · intro num hnum
    cases num <;> first
      | exact absurd rfl (hnum _)
      | simp [transformDiv, qint]
  · intro num
    cases num <;> simp [transformDiv]
  · intro num den hden
    cases den <;> first
      | exact absurd rfl (hden _)
      | rfl

/-- Witness for C1 at concrete operands: `1/2` folds, `[score] / 2` is a
plain cast division, `[score] / 1` is the bare column, `[score] / 0` is
the divide-by-zero error, and `2 / [score]` gets the runtime guard. -/
theorem division_transform_cases_witness :
    transformDiv (.pyNum ⟨1, 1⟩) (.pyNum ⟨2, 1⟩) = .ok (.pyNum ⟨1, 2⟩) ∧
    transformDiv (.colRef "score") (.pyNum ⟨2, 1⟩) =
      .ok (.binop "/" (.castFloat (.colRef "score")) (.pyNum ⟨2, 1⟩)) ∧
    transformDiv (.colRef "score") (.pyNum ⟨1, 1⟩) = .ok (.colRef "score") ∧
    transformDiv (.colRef "score") (.pyNum ⟨0, 1⟩) =
      .error "When dividing, the denominator can not be zero" ∧
    transformDiv (.pyNum ⟨2, 1⟩) (.colRef "score") =
      .ok (.caseWhen (.cmpOp .eq (.colRef "score") (.pyNum ⟨0, 1⟩)) .sqlNull
        (.binop "/" (.pyNum ⟨2, 1⟩) (.castFloat (.colRef "score")))) :=
  ⟨division_transform_cases.1 ⟨1, 1⟩ ⟨2, 1⟩ (by decide),
   division_transform_cases.2.1 (.colRef "score") ⟨2, 1⟩
     (fun q h => SqlExpr.noConfusion h) (by decide) (by decide),
   division_transform_cases.2.2.1 (.colRef "score")
     (fun q h => SqlExpr.noConfusion h),
   division_transform_cases.2.2.2.1 (.colRef "score"),
   division_transform_cases.2.2.2.2.1 (.pyNum ⟨2, 1⟩) (.colRef "score")
     (fun q h => SqlExpr.noConfusion h)⟩

/-- C4: the `functools.lru_cache(maxsize=None)` memoization of
`SQLAlchemyBuilder.parse`.  For every implementation and every argument
tuple whose first call compiles successfully, the second call with the
identical tuple returns the equal result, is served from the cache, and
leaves the cache unchanged; and the cache only ever grows — every entry
present before a call is still present (same key, same response) after
it, so it is unbounded for the instance's lifetime. -/
theorem parse_cache_idempotent :
    ∀ (impl : ParseArgs → Except (List VError) BuilderResponse)
      (c : ParseCache) (a : ParseArgs) (r : BuilderResponse),
      (cachedParse impl c a).2.1 = .ok r →
      cachedParse impl (cachedParse impl c a).1 a =
        ((cachedParse impl c a).1, .ok r, true) ∧
      ∀ (k : ParseArgs) (v : BuilderResponse), cacheLookup c k = some v →
        cacheLookup (cachedParse impl c a).1 k = some v := by
  intro impl c a r h
  cases h0 : cacheLookup c a with
  | some v =>
      simp only [cachedParse, h0] at h ⊢
      cases h
      exact ⟨rfl, fun k v hk => hk⟩
  | none =>
      cases h1 : impl a with
      | ok v =>
          simp only [cachedParse, h0, h1] at h ⊢
          cases h
          constructor
          · simp [cacheLookup]
          · intro k v' hk
            have hak : ¬(a = k) := by
              intro he
              rw [he, hk] at h0
              cases h0
            simp [cacheLookup, hak, hk]
      | error e =>
          simp only [cachedParse, h0, h1] at h
          cases h

/-- Witness for C4: after a first `parse("[score]")` call against a cache
holding one unrelated entry, the repeated call returns the same response
from the cache, and the unrelated entry is still cached. -/
theorem parse_cache_idempotent_witness :
    cachedParse parseImplScore
        ((cachedParse parseImplScore [(otherArgs, otherResp)] scoreArgs).1)
        scoreArgs =
      ((cachedParse parseImplScore [(otherArgs, otherResp)] scoreArgs).1,
        .ok ⟨.num, .colRef "score", false⟩, true) ∧
    cacheLookup ((cachedParse parseImplScore [(otherArgs, otherResp)] scoreArgs).1)
        otherArgs = some otherResp :=
  ⟨(parse_cache_idempotent parseImplScore [(otherArgs, otherResp)] scoreArgs
      ⟨.num, .colRef "score", false⟩ (by decide)).1,
   (parse_cache_idempotent parseImplScore [(otherArgs, otherResp)] scoreArgs
      ⟨.num, .colRef "score", false⟩ (by decide)).2 otherArgs otherResp (by decide)⟩

/-- C9: with the enforce-aggregation flag set, a successfully compiled
expression containing no aggregation and of numeric type is returned
wrapped in the default aggregation call applied to the whole transformed
expression; in every other case (flag unset, aggregation already present,
or non-numeric type) the transformed expression is returned unwrapped. -/
theorem enforce_aggregation_wrapping :
    ∀ (fa ea : Bool) (da : String) (e : Expr) (resp : BuilderResponse),
      builder_parse fa ea da e = .ok resp →
      ((ea = true ∧ resp.is_aggr = false ∧ resp.datatype = .num) →
        ∃ inner, transform e = .ok inner ∧ resp.expression = .call da inner) ∧
      ((ea = false ∨ resp.is_aggr = true ∨ resp.datatype ≠ .num) →
        transform e = .ok resp.expression) := by
  intro fa ea da e resp h
  simp only [builder_parse] at h
  split at h
  · cases h
  · cases ht : transform e with
    | error m => rw [ht] at h; cases h
    | ok expr =>
        rw [ht] at h
        simp only at h
        split at h
        · cases h
        · split at h
          · rename_i hguard
            cases h
            obtain ⟨⟨hea, hfound⟩, hdt⟩ :
                (ea = true ∧ (builderValidate fa e).found_aggregation = false) ∧
                  (builderValidate fa e).datatype = DataType.num := by
              simpa [Bool.and_eq_true, Bool.not_eq_true', beq_iff_eq] using hguard
            constructor
            · intro _
              exact ⟨expr, rfl, rfl⟩
            · intro hcase
              rcases hcase with h' | h' | h'
              · rw [h'] at hea; cases hea
              · simp [hfound] at h'
              · exact absurd hdt h'
          · rename_i hguard
            cases h
            constructor
            · intro ⟨hea, hagg, hdt⟩
              exfalso
              apply hguard
              simp only [Bool.and_eq_true, Bool.not_eq_true', beq_iff_eq]
              exact ⟨⟨hea, hagg⟩, hdt⟩
            · intro _
              exact rfl

/-- Witness for C9 at the test's input: `[score]` parsed with
`enforce_aggregation=True` wraps the bare column in `sum`, and `[score]`
parsed with the flag unset stays the bare column. -/
theorem enforce_aggregation_wrapping_witness :
    (∃ inner, transform (.col "score" DataType.num 0) = .ok inner ∧
      (BuilderResponse.mk .num (.call "sum" (.colRef "score")) false).expression =
        .call "sum" inner) ∧
    transform (.col "score" DataType.num 0) =
      .ok (BuilderResponse.mk .num (.colRef "score") false).expression :=
  ⟨(enforce_aggregation_wrapping false true "sum" (.col "score" .num 0)
      ⟨.num, .call "sum" (.colRef "score"), false⟩ (by decide)).1
      ⟨rfl, rfl, rfl⟩,
   (enforce_aggregation_wrapping false false "sum" (.col "score" .num 0)
      ⟨.num, .colRef "score", false⟩ (by decide)).2 (Or.inl rfl)⟩

/-- C8 counterexample: `[score] > 3 AND False` (asserted by the test suite
to compile to the bare literal `false`) compiles successfully, yet its
result contains no column reference — refuting "every successful compile
result contains at least one column reference". -/
theorem compile_without_column_ref :
    builder_parse false false "sum"
      (.and (.cmp .gt (.col "score" .num 0) (.numLit (qint 3) 10) 0)
        (.boolLit false 16) 0) =
      .ok ⟨.bool, .boolClause false, false⟩ ∧
    containsColRef (SqlExpr.boolClause false) = false :=
  ⟨rfl, rfl⟩

/-- C8 as amended: an expression whose transformation reduces to a bare
Python constant (string, float, int, date or datetime) is rejected with
"Must return an expression, not a constant value"; consequently every
successful compile result is a non-constant SQL expression — though it
need not contain a column reference (a boolean folded to literal `false`
succeeds). -/
theorem constant_results_rejected :
    (∀ (fa ea : Bool) (da : String) (e : Expr) (v : SqlExpr),
      (builderValidate fa e).errors = [] → transform e = .ok v →
      isPyConstant v = true →
      builder_parse fa ea da e =
        .error [("Must return an expression, not a constant value", 0)]) ∧
    (∀ (fa ea : Bool) (da : String) (e : Expr) (resp : BuilderResponse),
      builder_parse fa ea da e = .ok resp →
      isPyConstant resp.expression = false) := by
  constructor
  · intro fa ea da e v herr ht hconst
    simp only [builder_parse, herr, ht]
    simp [hconst]
  · intro fa ea da e resp h
    simp only [builder_parse] at h
    split at h
    · cases h
    · cases ht : transform e with
      | error m => rw [ht] at h; cases h
      | ok expr =>
          rw [ht] at h
          simp only at h
          split at h
          · cases h
          · rename_i hconst
            split at h
            · cases h
              rfl
            · cases h
              simpa using hconst

/-- Witness for C8's amended statement: the literal-only input `5` (from
the `test_disallow_literals` examples) is rejected as a constant, and the
successful compile of the bare column `[score]` has a non-constant
result. -/
theorem constant_results_rejected_witness :
    builder_parse false false "sum" (.numLit (qint 5) 0) =
      .error [("Must return an expression, not a constant value", 0)] ∧
    isPyConstant (BuilderResponse.mk DataType.num (.colRef "score") false).expression =
      false :=
  ⟨constant_results_rejected.1 false false "sum" (.numLit (qint 5) 0)
      (.pyNum (qint 5)) rfl rfl rfl,
   constant_results_rejected.2 false false "sum" (.col "score" .num 0)
      ⟨.num, .colRef "score", false⟩ (by decide)⟩
